import Mathlib

/-!
Verification of the GCE resource-adapter batch orchestrator
(`src/tortuga/resourceAdapter/gceadapter/gce.py`).

The Python source is shallowly embedded: pure helpers become Lean
functions; methods that perform external calls are modelled as functions
from explicit "world" oracles (poll responses, VM descriptions, storage
catalog contents) to a trace of emitted side effects (`Effect`) plus an
`Except` result.  Python exceptions are modelled by the `Err` type; the
`Err.outOfFuel` constructor is a modelling artifact used when an
unbounded polling loop runs past the end of its response oracle, and
corresponds to no Python behaviour.
-/

/-- Python exceptions raised (or propagated) by the adapter code. -/
inductive Err
  | typeError
  | keyError
  | valueError
  | outOfFuel
  | configurationError (msg : String)
  | commandFailed (msg : String)
  | operationFailed (msg : String)
deriving DecidableEq

/-- Short printable form of an error, used where the source interpolates
the exception into a message string. -/
def Err.text : Err → String
  | .typeError => "TypeError"
  | .keyError => "KeyError"
  | .valueError => "ValueError"
  | .outOfFuel => "OutOfFuel"
  | .configurationError m => m
  | .commandFailed m => m
  | .operationFailed m => m

/-- Python `s.split(sep)` for a one-character separator, keeping empty
pieces, over the character list of the string. -/
def pySplitChar (sep : Char) (s : List Char) : List (List Char) :=
  List.splitOn sep s

/-- Split at the first occurrence of `sep` (Python `s.split(sep, 1)`),
returning `none` when `sep` does not occur. -/
def splitFirst (sep : Char) : List Char → Option (List Char × List Char)
  | [] => none
  | c :: cs =>
    if c = sep then some ([], cs)
    else (splitFirst sep cs).map (fun p => (c :: p.1, p.2))

/-- Split at the last occurrence of `sep` (Python `s.rsplit(sep, 1)`),
returning `none` when `sep` does not occur. -/
def rsplitLast (sep : Char) (s : List Char) : Option (List Char × List Char) :=
  (splitFirst sep s.reverse).map (fun p => (p.2.reverse, p.1.reverse))

/-- Boolean test that the pattern (second argument) heads the list. -/
def pyStarts : List Char → List Char → Bool
  | _, [] => true
  | [], _ :: _ => false
  | c :: cs, d :: ds => c = d && pyStarts cs ds

/-- Python `s.lower()` over characters. -/
def pyLower (s : List Char) : List Char :=
  s.map Char.toLower

/-- Python `int(s)` restricted to non-empty all-digit strings; any other
shape raises `ValueError` (modelled by `none`). -/
def pyToNat? (s : List Char) : Option Nat :=
  if s ≠ [] ∧ s.all Char.isDigit then
    some (s.foldl (fun acc c => acc * 10 + (c.toNat - 48)) 0)
  else none

/-- Python `s.strip()`: drop leading and trailing whitespace. -/
def pyStrip (s : List Char) : List Char :=
  ((s.dropWhile Char.isWhitespace).reverse.dropWhile Char.isWhitespace).reverse

/-- Lexicographic strict order on strings by character code, the order
Python's `sorted` uses for `str` keys. -/
def pyStrLt : List Char → List Char → Bool
  | [], [] => false
  | [], _ :: _ => true
  | _ :: _, [] => false
  | c :: cs, d :: ds => c < d || (c = d && pyStrLt cs ds)

/-- Stable insertion into a sorted list (helper of `pySorted`). -/
def pyInsSorted (x : String) : List String → List String
  | [] => [x]
  | y :: ys => if pyStrLt x.data y.data then x :: y :: ys else y :: pyInsSorted x ys

/-- Python `sorted` on string keys (stable, ascending by code points). -/
def pySorted : List String → List String
  | [] => []
  | x :: xs => pyInsSorted x (pySorted xs)

/-- `GCE_URL` constant from the source. -/
def GCE_URL : String := "https://www.googleapis.com/compute/v1/projects/"

/-- `get_instance_name_from_host_name`: first dot-separated token. -/
def get_instance_name_from_host_name (hostname : String) : String :=
  match splitFirst '.' hostname.data with
  | none => hostname
  | some p => String.mk p.1

/-- Two-digit zero padding, Python `'%02d' % n` for natural `n`. -/
def pad2 (n : Nat) : String :=
  if n < 10 then "0" ++ toString n else toString n

/-- `get_disk_volume_name`: `'%s-disk-%02d' % (instance_name, diskNumber)`. -/
def get_disk_volume_name (instance_name : String) (diskNumber : Nat) : String :=
  instance_name ++ "-disk-" ++ pad2 diskNumber

/-- `split_forward_slash_value`: `(default, value)` if no slash, else the
two tokens around the first slash. -/
def split_forward_slash_value (value dflt : String) : String × String :=
  match splitFirst '/' value.data with
  | none => (dflt, value)
  | some p => (String.mk p.1, String.mk p.2)

/-- Parsed network flags, the dict built by `get_network_flags`; `none`
models an absent key. -/
structure NetworkFlags where
  external : Option Bool := none
  primary : Option Bool := none
deriving DecidableEq

/-- Loop body of `get_network_flags`: one `;`-separated token at a time,
last occurrence of a flag taking precedence; an unrecognized token raises
`ConfigurationError`. -/
def network_flags_loop : List (List Char) → NetworkFlags → Except Err NetworkFlags
  | [], acc => .ok acc
  | a :: rest, acc =>
    if a = [] then network_flags_loop rest acc
    else if pyStarts (pyLower a) "ext".data then
      network_flags_loop rest { acc with external := some true }
    else if pyStarts (pyLower a) "noext".data then
      network_flags_loop rest { acc with external := some false }
    else if pyStarts (pyLower a) "pri".data then
      network_flags_loop rest { acc with primary := some true }
    else
      .error (.configurationError ("Invalid network flag: [" ++ String.mk a ++ "]"))

/-- `get_network_flags`: `None` argument yields the empty dict, otherwise
the `;`-separated tokens are folded by `network_flags_loop`. -/
def get_network_flags : Option String → Except Err NetworkFlags
  | none => .ok {}
  | some args => network_flags_loop (pySplitChar ';' args.data) {}

/-- `is_network_flag_set` specialised to the `external` flag:
`network_flags.get('external', default)`. -/
def is_external_set (flags : NetworkFlags) (dflt : Bool) : Bool :=
  flags.external.getD dflt

/-- One entry of the parsed `networks` configuration:
`(network_def, subnet_def, network_args)` as produced by
`split_three_item_value`. -/
def NetworkEntry : Type := String × Option String × Option String

/-- A network interface dict; `accessConfigs` records the presence of the
constant `EXTERNAL_NETWORK_ACCESS_CONFIG` NAT entry. -/
structure NetworkInterface where
  network : String
  subnetwork : Option String := none
  accessConfigs : Bool := false
deriving DecidableEq

/-- `set_external_network_access`. -/
def set_external_network_access (ni : NetworkInterface) : NetworkInterface :=
  { ni with accessConfigs := true }

/-- The interface dict built by `Gce.__get_network_interface` before the
flags are parsed: network URL from the project-qualified (or defaulted)
network name, plus the optional subnetwork URL.  An empty-string subnet
definition is falsy in Python and is skipped like `None`. -/
def resolved_interface (default_project default_region : String)
    (net : NetworkEntry) : NetworkInterface :=
  let network_def := net.1
  let subnet_def := net.2.1
  let pr := split_forward_slash_value network_def default_project
  let base : NetworkInterface :=
    { network := GCE_URL ++ pr.1 ++ "/global/networks/" ++ pr.2 }
  match subnet_def with
  | none => base
  | some sd =>
    if sd = "" then base
    else
      let rs := split_forward_slash_value sd default_region
      { base with
          subnetwork := some (GCE_URL ++ pr.1 ++ "/regions/" ++ rs.1
            ++ "/subnetworks/" ++ rs.2) }

/-- `Gce.__get_network_interface`: builds the interface dict and parses
the entry's flags (the parse happens at the `return`, after the dict is
built; an invalid flag raises out of the method). -/
def get_network_interface (default_project default_region : String)
    (net : NetworkEntry) : Except Err (NetworkInterface × NetworkFlags) :=
  match get_network_flags net.2.2 with
  | .error e => .error e
  | .ok flags => .ok (resolved_interface default_project default_region net, flags)

/-- Loop of `Gce.__get_network_interface_definitions`: resolves each
entry, rejects a second primary-flagged entry, and applies the `external`
flag.  The accumulator is the already-seen primary entry. -/
def process_networks (dp dr : String) :
    List NetworkEntry → Option NetworkEntry → Except Err (List NetworkInterface)
  | [], _ => .ok []
  | net :: rest, primary_intfc =>
    match get_network_interface dp dr net with
    | .error e => .error e
    | .ok (ni, flags) =>
      match
        (if flags.primary.getD false then
          match primary_intfc with
          | some _ =>
            Except.error (Err.configurationError
              "Only one interface may be primary")
          | none => Except.ok (some net)
        else Except.ok primary_intfc) with
      | .error e => .error e
      | .ok primary_intfc =>
        let ni := if is_external_set flags false then
            set_external_network_access ni
          else ni
        match process_networks dp dr rest primary_intfc with
        | .error e => .error e
        | .ok rest_ifaces => .ok (ni :: rest_ifaces)

/-- `enable_external_network_access`: with exactly one configured network
whose definition is `default`, or whose flags do not explicitly disable
external access, the first interface gets the NAT access config. -/
def enable_external_network_access (networks : List NetworkEntry)
    (ifaces : List NetworkInterface) : Except Err (List NetworkInterface) :=
  match networks, ifaces with
  | [net], i0 :: rest =>
    if net.1 = "default" then .ok (set_external_network_access i0 :: rest)
    else
      match get_network_flags net.2.2 with
      | .error e => .error e
      | .ok flags =>
        if is_external_set flags true then
          .ok (set_external_network_access i0 :: rest)
        else .ok (i0 :: rest)
  | _, _ => .ok ifaces

/-- `Gce.__get_network_interface_definitions`: the loop above followed by
the backwards-compatibility external-access fixup. -/
def get_network_interface_definitions (project region : String)
    (networks : List NetworkEntry) : Except Err (List NetworkInterface) :=
  match process_networks project region networks none with
  | .error e => .error e
  | .ok ifaces => enable_external_network_access networks ifaces


/-- A long-running GCE operation dict as the poller sees it: `status`,
`name`, optional `zone` (selecting the zone- vs global-scoped endpoint),
presence of an `error` field with its `errors` list of
`(message, code)` pairs, and the terminal `targetLink`. -/
structure Operation where
  opStatus : String
  opName : String := "op"
  zone : Option String := none
  hasError : Bool := false
  errors : List (String × String) := []
  targetLink : Option String := none
deriving DecidableEq

/-- `_blocking_call` / `_gevent_blocking_call` loop, abstracted over the
oracle of successive `zoneOperations().get` / `globalOperations().get`
responses (`none` models a falsy response, on which the loop exits and
the falsy value is returned).  Exhausting the oracle while the operation
is still pending is the `outOfFuel` modelling artifact. -/
def blocking_call_loop : Operation → List (Option Operation) → Except Err (Option Operation)
  | op, fetches =>
    if op.opStatus = "DONE" then .ok (some op)
    else
      match fetches with
      | [] => .error .outOfFuel
      | none :: _ => .ok none
      | some op2 :: rest => blocking_call_loop op2 rest

/-- `_blocking_call`: `status = response['status']` raises `TypeError`
when the passed response is `None`; otherwise the polling loop runs. -/
def blocking_call (response : Option Operation) (fetches : List (Option Operation)) :
    Except Err (Option Operation) :=
  match response with
  | none => .error .typeError
  | some op => blocking_call_loop op fetches

/-- `max_sleep_time` from `_gevent_blocking_call`. -/
def max_sleep_time : Nat := 5000

/-- `temp = min(max_sleep_time, (polling_interval * 1000) * 2 ** attempt)`:
the capped exponential backoff value in milliseconds
(`polling_interval` is in seconds). -/
def tempMs (polling_interval attempt : Nat) : Nat :=
  min max_sleep_time (polling_interval * 1000 * 2 ^ attempt)

/-- Upper bound of the jitter draw `random.randint(0, temp / 2)`. -/
def nRand (polling_interval attempt : Nat) : Nat :=
  tempMs polling_interval attempt / 2

/-- The sleep taken by `_gevent_blocking_call` before re-polling, in
seconds, as a function of the attempt counter and the jitter draw `r`:
`10` seconds on the first retry (attempt 0), otherwise
`(temp / 2 + r) / 1000.0` (exact here: `temp` is always even). -/
def sleeptime (polling_interval attempt r : Nat) : ℚ :=
  if attempt = 0 then 10
  else ((tempMs polling_interval attempt : ℚ) / 2 + r) / 1000

/-- Expected value of `sleeptime` over the uniform jitter draw
`r ∈ {0, …, temp / 2}`. -/
def expected_sleeptime (polling_interval attempt : Nat) : ℚ :=
  (∑ r in Finset.range (nRand polling_interval attempt + 1),
    sleeptime polling_interval attempt r) / (nRand polling_interval attempt + 1)

/-- `_gevent_blocking_call` loop: like `blocking_call_loop` but recording
the sleeps taken (the attempt counter increments every iteration; a sleep
happens only when the freshly fetched response is still not `DONE`). -/
def gevent_blocking_call_loop (p : Nat) (rand : Nat → Nat) :
    Operation → List (Option Operation) → Nat → List ℚ × Except Err (Option Operation)
  | op, fetches, attempt =>
    if op.opStatus = "DONE" then ([], .ok (some op))
    else
      match fetches with
      | [] => ([], .error .outOfFuel)
      | none :: _ => ([], .ok none)
      | some op2 :: rest =>
        if op2.opStatus = "DONE" then ([], .ok (some op2))
        else
          let s := sleeptime p attempt (rand attempt)
          let next := gevent_blocking_call_loop p rand op2 rest (attempt + 1)
          (s :: next.1, next.2)

/-- `_gevent_blocking_call` on a response already in hand, starting with
`attempt = 0`; returns the sleep trace and the terminal response. -/
def gevent_blocking_call (p : Nat) (rand : Nat → Nat) (response : Option Operation)
    (fetches : List (Option Operation)) : List ℚ × Except Err (Option Operation) :=
  match response with
  | none => ([], .error .typeError)
  | some op => gevent_blocking_call_loop p rand op fetches 0

/-- One added-disk entry of `sanApi.discoverStorageChanges(node)['added']`
(and, with the same shape, of `['removed']`): the storage adapter tag and
the size in MB. -/
structure AddedDisk where
  adapter : String
  sizeMb : Nat
deriving DecidableEq

/-- A disk dict accumulated by `__process_added_disk_changes`
(`name` / `sizeGb` / optional `link`); `sizeGb = sizeMb / 1000` with
Python float division, exact in ℚ. -/
structure PDisk where
  name : String
  sizeGb : ℚ
  link : Option String := none
deriving DecidableEq

/-- Side effects emitted by the orchestrator, in program order.  Nodes
are identified by a numeric id; `deleteInstance` records the id of the
node whose cloud instance is deleted. -/
inductive Effect
  | createDisk (volName : String) (diskNumber : Nat) (sizeGb : ℚ)
  | sanAddDrive (node : Nat) (diskNumber : Nat) (sizeMb : Nat)
  | sanDeleteDrive (node : Nat) (diskNumber : Nat)
  | clearSessionNode (node : Nat)
  | dbDeleteNode (node : Nat)
  | deleteInstance (node : Nat)
  | setNodeState (node : Nat) (st : String)
  | fireProvisioned (node : Nat)
  | addNic (node : Nat) (ip : String)
  | preAddHost (node : Nat) (ip : String)
  | dbCommit
  | partialWarning (completed count : Nat)
deriving DecidableEq

/-- Body of the `__process_added_disk_changes` loop, iterating over the
already `int`-converted `(diskNumber, disk)` pairs in dict-key order.
For a default-adapter disk with number > 1 the persistent-disk create
call is submitted (`__create_persistent_disk`, whose return value is
discarded) and then `_blocking_call` is invoked with `None` as the
response — which raises `TypeError` before anything else happens, so the
`targetLink` recording and the `sanApi.addDrive` bookkeeping after it
are unreachable on that path. -/
def added_disks_loop (node : Nat) (instance_name : String)
    (fetches : List (Option Operation)) :
    List (Nat × AddedDisk) → List Effect × Except Err (List PDisk)
  | [] => ([], .ok [])
  | (n, disk) :: rest =>
    let sizeGb : ℚ := (disk.sizeMb : ℚ) / 1000
    if disk.adapter ≠ "default" then added_disks_loop node instance_name fetches rest
    else
      let volName := get_disk_volume_name instance_name n
      if n > 1 then
        match blocking_call none fetches with
        | .error e => ([.createDisk volName n sizeGb], .error e)
        | .ok none => ([.createDisk volName n sizeGb], .error .typeError)
        | .ok (some result) =>
          match result.targetLink with
          | none => ([.createDisk volName n sizeGb], .error .keyError)
          | some link =>
            let next := added_disks_loop node instance_name fetches rest
            (.createDisk volName n sizeGb :: .sanAddDrive node n disk.sizeMb :: next.1,
             next.2.map (fun ds => { name := volName, sizeGb := sizeGb, link := some link } :: ds))
      else
        let next := added_disks_loop node instance_name fetches rest
        (.sanAddDrive node n disk.sizeMb :: next.1,
         next.2.map (fun ds => { name := volName, sizeGb := sizeGb } :: ds))

/-- `Gce.__process_added_disk_changes`: sorts the added-disk dict keys as
strings (Python `sorted` on `str`), converts each to `int` up front (the
list comprehension evaluates `int(disk_index)` for every key before the
loop body runs; a non-numeric key raises `ValueError`), then runs the
loop.  `added_disk_pairs` is that key-sorting and conversion step. -/
def added_disk_pairs (added : List (String × AddedDisk)) :
    Option (List (Nat × AddedDisk)) :=
  (pySorted (added.map Prod.fst)).mapM (fun k =>
    (pyToNat? k.data).bind (fun n =>
      ((added.lookup k).map (fun d => (n, d)))))

def process_added_disk_changes (node : Nat) (instance_name : String)
    (fetches : List (Option Operation)) (added : List (String × AddedDisk)) :
    List Effect × Except Err (List PDisk) :=
  match added_disk_pairs added with
  | none => ([], .error .valueError)
  | some pairs => added_disks_loop node instance_name fetches pairs


/-- A per-node provisioning request dict (`node_request` in the source),
initialised by `__build_node_request_queue` as
`dict(node=node, status='pending')`; `response` and `result` model the
presence of those keys, and nodes are identified by a numeric id. -/
structure NodeRequest where
  node : Nat
  status : String := "pending"
  message : Option String := none
  response : Option Operation := none
  result : Option Operation := none
deriving DecidableEq

/-- One network interface of a live instance description; `networkIP`
models the presence of that key (`none` = key absent, a lookup raises
`KeyError`). -/
structure NetIface where
  networkIP : Option String := none
deriving DecidableEq

/-- A live instance description as returned by `instances().get`. -/
structure VmInstance where
  networkInterfaces : List NetIface := []
deriving DecidableEq

/-- The external world one wait-phase worker observes for its request:
the successive operation-poll responses, the `gce_get_vm` result
(`none` models the instance having disappeared, including the 404
path), and whether a `__deleteInstance` call fails with a non-404 HTTP
error — in which case that method raises `CommandFailed`
(`deleteRaises`; a deletion that succeeds or 404s returns normally). -/
structure ReqWorld where
  fetches : List (Option Operation) := []
  vm : Option VmInstance := none
  deleteRaises : Bool := false
deriving DecidableEq

/-- `Gce.__mark_node_request_failed`: always writes status `'error'`
(the `status` parameter is ignored by the source body) and sets the
message only when one is given. -/
def mark_node_request_failed (req : NodeRequest) (message : Option String) : NodeRequest :=
  { req with
      status := "error",
      message := match message with
        | some m => some m
        | none => req.message }

/-- `gevent_wait_for_instance`: polls the submitted create operation via
`_gevent_blocking_call`, then classifies the terminal response — the
presence of an `error` field means failure — writing `status` and
`result` into the request and returning whether it succeeded.  A missing
`response` key raises `KeyError`; a falsy poll result makes
`'error' in result` raise `TypeError`. -/
def gevent_wait_for_instance (p : Nat) (rand : Nat → Nat)
    (fetches : List (Option Operation)) (req : NodeRequest) :
    Except Err (NodeRequest × Bool) :=
  match req.response with
  | none => .error .keyError
  | some op0 =>
    match (gevent_blocking_call p rand (some op0) fetches).2 with
    | .error e => .error e
    | .ok none => .error .typeError
    | .ok (some result) =>
      let st := if result.hasError then "error" else "success"
      .ok ({ req with status := st, result := some result }, st = "success")

/-- `Gce.__get_instance_internal_ip`: the first interface's `networkIP`
(a missing key raises `KeyError`), or `None` when the interface list is
empty (the `for` loop body never runs). -/
def get_instance_internal_ip (inst : VmInstance) : Except Err (Option String) :=
  match inst.networkInterfaces with
  | [] => .ok none
  | ni :: _ =>
    match ni.networkIP with
    | none => .error .keyError
    | some ip => .ok (some ip)

/-- `Gce.__instance_post_launch`: with the instance gone it only logs and
returns; otherwise it sets the node state to installed, reads the
internal IP — logging and returning without error when the IP is `None` —
and on success appends the NIC and calls `_pre_add_host`. -/
def instance_post_launch (node : Nat) (vm : Option VmInstance) :
    List Effect × Except Err Unit :=
  match vm with
  | none => ([], .ok ())
  | some inst =>
    match get_instance_internal_ip inst with
    | .error e => ([.setNodeState node "Installed"], .error e)
    | .ok none => ([.setNodeState node "Installed"], .ok ())
    | .ok (some ip) =>
      ([.setNodeState node "Installed", .addNic node ip, .preAddHost node ip], .ok ())

/-- The `', '.join(...)` of `result['error']['errors']` messages used for
the failure log/message. -/
def errors_message (result : Option Operation) : String :=
  match result with
  | none => ""
  | some op =>
    String.intercalate ", " (op.errors.map (fun e => e.1 ++ " (" ++ e.2 ++ ")"))

/-- `Gce.__wait_for_instance` for one request: returns the updated
request, the effects emitted, and the sequence of writes made to the
request's `status` field.  On a successful launch whose post-launch hook
raises, the request is re-marked `error` and `__deleteInstance` is
called; if that deletion itself fails with a non-404 error, the
`CommandFailed` it raises escapes the hook-failure handler into the
outer `except`, which marks the request `error` once more — a third
status write.  Any other exception in the body (poll transport error,
missing keys) is caught by the outer `except` and the request is marked
`error`. -/
def wait_for_instance (p : Nat) (rand : Nat → Nat) (w : ReqWorld) (req : NodeRequest) :
    NodeRequest × List Effect × List String :=
  match gevent_wait_for_instance p rand w.fetches req with
  | .error e => (mark_node_request_failed req (some e.text), [], ["error"])
  | .ok (req2, launched) =>
    if launched then
      match instance_post_launch req2.node w.vm with
      | (effs, .ok _) => (req2, effs, ["success"])
      | (effs, .error e) =>
        if w.deleteRaises then
          (mark_node_request_failed
            (mark_node_request_failed req2
              (some ("Internal error: post-launch action (exception " ++ e.text ++ ")")))
            (some "Error deleting Compute Engine instance"),
           effs ++ [.deleteInstance req2.node], ["success", "error", "error"])
        else
          (mark_node_request_failed req2
            (some ("Internal error: post-launch action (exception " ++ e.text ++ ")")),
           effs ++ [.deleteInstance req2.node], ["success", "error"])
    else
      (mark_node_request_failed req2 (some (errors_message req2.result)),
       [], ["error", "error"])

/-- The wait phase of `Gce.__wait_for_instances`: every request that has
a `response` key is handed to a worker (`wait_worker` →
`__wait_for_instance`); requests without one are ignored.  The worker
pool is modelled as an independent per-request map — each worker owns
exactly one request and they share no mutable state, and the orchestrator
joins the queue before looking at any status. -/
def wait_phase (p : Nat) (rand : Nat → Nat) (queue : List (NodeRequest × ReqWorld)) :
    List (NodeRequest × List Effect × List String) :=
  queue.map (fun qw =>
    if qw.1.response.isSome then wait_for_instance p rand qw.2 qw.1
    else (qw.1, [], []))

/-- The final loop of `Gce.__wait_for_instances`: raise `CommandFailed`
if any request's status is `'error'`. -/
def wait_check (queue : List NodeRequest) : Except Err Unit :=
  if queue.any (fun r => r.status == "error") then
    .error (.commandFailed "Fatal error launching one or more instances")
  else .ok ()

/-- `Gce.__process_deleted_disk_changes`: iterate the removed-disk dict
(keys `int`-converted up front by the list comprehension), removing the
storage-catalog entry of every default-adapter disk.  Does not touch the
cloud. -/
def process_deleted_disk_changes (node : Nat) (removed : List (String × AddedDisk)) :
    List Effect × Except Err Unit :=
  match removed.mapM (fun kv => (pyToNat? kv.1.data).map (fun n => (n, kv.2))) with
  | none => ([], .error .valueError)
  | some pairs =>
    (pairs.filterMap (fun pr =>
      if pr.2.adapter = "default" then some (.sanDeleteDrive node pr.1) else none),
     .ok ())

/-- `Gce.__node_cleanup`: clear the add-host session entry and remove the
node's storage-catalog entries. -/
def node_cleanup (node : Nat) (removed : List (String × AddedDisk)) :
    List Effect × Except Err Unit :=
  (.clearSessionNode node :: (process_deleted_disk_changes node removed).1,
   (process_deleted_disk_changes node removed).2)

/-- Loop of `Gce.__post_launch_action` over the request queue: a request
not in `'success'` status has its node cleaned up and its database record
deleted; a successful one is appended to the result, marked provisioned,
and its provisioned event fired.  Returns the effects, and the result
list with the completed count. -/
def post_launch_go (removedOf : Nat → List (String × AddedDisk)) :
    List NodeRequest → List Effect × Except Err (List Nat × Nat)
  | [] => ([], .ok ([], 0))
  | req :: rest =>
    if req.status = "success" then
      let next := post_launch_go removedOf rest
      (.setNodeState req.node "Provisioned" :: .fireProvisioned req.node :: next.1,
       next.2.map (fun rc => (req.node :: rc.1, rc.2 + 1)))
    else
      match node_cleanup req.node (removedOf req.node) with
      | (ceffs, .ok _) =>
        let next := post_launch_go removedOf rest
        (ceffs ++ .dbDeleteNode req.node :: next.1, next.2)
      | (ceffs, .error e) => (ceffs, .error e)

/-- `Gce.__post_launch_action`: the loop above, then a single database
commit, then the partial-success warning when
`0 < completed < count`.  Returns the list of committed node ids. -/
def post_launch_action (removedOf : Nat → List (String × AddedDisk))
    (queue : List NodeRequest) : List Effect × Except Err (List Nat) :=
  let count := queue.length
  match (post_launch_go removedOf queue).2 with
  | .error e => ((post_launch_go removedOf queue).1, .error e)
  | .ok (ns, completed) =>
    let effs := (post_launch_go removedOf queue).1 ++ [.dbCommit]
    let effs := if 0 < completed ∧ completed < count then
        effs ++ [.partialWarning completed count]
      else effs
    (effs, .ok ns)

/-- The wait-and-reconcile section of `Gce.__addActiveNodes`
(lines 1161–1171): run the wait phase; if it raised, run
`__post_launch_action` for cleanup and re-raise (an exception raised by
the cleanup itself replaces the original one, as in Python); otherwise
return `__post_launch_action`'s result. -/
def add_active_nodes_wait_and_post (p : Nat) (rand : Nat → Nat)
    (removedOf : Nat → List (String × AddedDisk))
    (queue : List (NodeRequest × ReqWorld)) : List Effect × Except Err (List Nat) :=
  let results := wait_phase p rand queue
  let processed := results.map (fun x => x.1)
  let weffs := (results.map (fun x => x.2.1)).flatten
  let post := post_launch_action removedOf processed
  match wait_check processed with
  | .error e =>
    (weffs ++ post.1,
     match post.2 with
     | .error e2 => .error e2
     | .ok _ => .error e)
  | .ok _ => (weffs ++ post.1, post.2)

/-- The cloud's set of live instances (by owning node id) after a list of
effects is executed. -/
def cloud_after (cloud : List Nat) (effs : List Effect) : List Nat :=
  effs.foldl (fun c e =>
    match e with
    | .deleteInstance n => c.erase n
    | _ => c) cloud

/-- The `region` extraction of `Gce.process_config` (lines 476–483): on a
zone with no hyphen the two-target unpacking of `rsplit('-', 1)` raises
`ValueError` before assigning, and the handler's message formatting then
looks up `config['region']` — a key never set at that point, so the
lookup itself raises `KeyError` and the intended `ConfigurationError` is
never constructed.  The config dict is modelled by its string entries. -/
def process_config_region (config : List (String × String)) : Except Err String :=
  match config.lookup "zone" with
  | none => .error .keyError
  | some zone =>
    match rsplitLast '-' zone.data with
    | some pq => .ok (String.mk pq.1)
    | none =>
      match config.lookup "region" with
      | none => .error .keyError
      | some r =>
        .error (.configurationError
          ("Invalid format for 'region' setting: " ++ r))

/-- `_parse_accelerator`: split on `','`, then each item (stripped) on
`':'`; a part count other than two raises `ConfigurationError`, and the
`int(count)` conversion of a non-numeric count raises `ValueError`
uncaught. -/
def parse_accelerator (accelerator_string : String) : Except Err (List (String × Nat)) :=
  go (pySplitChar ',' accelerator_string.data)
where
  /-- Per-item loop of `_parse_accelerator`. -/
  go : List (List Char) → Except Err (List (String × Nat))
    | [] => .ok []
    | s :: rest =>
      match pySplitChar ':' (pyStrip s) with
      | [accel, count] =>
        match pyToNat? count with
        | none => .error .valueError
        | some c =>
          match go rest with
          | .error e => .error e
          | .ok acc => .ok ((String.mk accel, c) :: acc)
      | _ => .error (.configurationError "Invalid Accelerator Configuration")


/-- Disk numbers of the explicit disk-create calls in an effect trace. -/
def createDiskNumbers (effs : List Effect) : List Nat :=
  effs.filterMap (fun e =>
    match e with
    | .createDisk _ n _ => some n
    | _ => none)

lemma added_disks_loop_createDisks (node : Nat) (iname : String)
    (fetches : List (Option Operation)) (pairs : List (Nat × AddedDisk)) :
    createDiskNumbers (added_disks_loop node iname fetches pairs).1 = [] ∨
    ∃ n, 1 < n ∧ createDiskNumbers (added_disks_loop node iname fetches pairs).1 = [n] := by
  induction pairs with
  | nil => left; rfl
  | cons hd tl ih =>
    obtain ⟨n, disk⟩ := hd
    by_cases hadapter : disk.adapter ≠ "default"
    · simpa [added_disks_loop, hadapter] using ih
    · simp only [not_not] at hadapter
      by_cases hn : n > 1
      · right
        refine ⟨n, hn, ?_⟩
        simp [added_disks_loop, hadapter, hn, blocking_call, createDiskNumbers]
      · have := ih
        simpa [added_disks_loop, hadapter, hn, createDiskNumbers] using this

lemma process_added_createDisks (node : Nat) (iname : String)
    (fetches : List (Option Operation)) (added : List (String × AddedDisk)) :
    createDiskNumbers (process_added_disk_changes node iname fetches added).1 = [] ∨
    ∃ n, 1 < n ∧
      createDiskNumbers (process_added_disk_changes node iname fetches added).1 = [n] := by
  unfold process_added_disk_changes
  cases added_disk_pairs added with
  | none => left; rfl
  | some pairs => simpa using added_disks_loop_createDisks node iname fetches pairs

/-- C5 — For every node request and any added-disk set, the explicit
disk-create calls are issued in strictly ascending disk-index order and
disk index 1 never triggers an explicit create call: index 1 takes the
size-only branch, and (because the `_blocking_call(None)` slip aborts the
loop at the first explicitly created disk, see the C3 result) a run emits
at most one create call, always for an index strictly greater than 1. -/
theorem claim5_disk_create_order (node : Nat) (iname : String)
    (fetches : List (Option Operation)) (added : List (String × AddedDisk)) :
    List.Chain' (· < ·)
      (createDiskNumbers (process_added_disk_changes node iname fetches added).1) ∧
    1 ∉ createDiskNumbers (process_added_disk_changes node iname fetches added).1 := by
  rcases process_added_createDisks node iname fetches added with h | ⟨n, hn, h⟩
  · rw [h]; exact ⟨List.chain'_nil, List.not_mem_nil 1⟩
  · rw [h]
    refine ⟨List.chain'_singleton n, ?_⟩
    simp only [List.mem_singleton]
    omega

/-- C3 — failing input: a node with one added disk of index 2 on the
default storage adapter.  The disk-create call is submitted
(`__create_persistent_disk`, which discards the insert operation), and
then `_blocking_call` is invoked with `None` as the response, so
`response['status']` raises `TypeError`: the create operation is never
polled and no `targetLink` is recorded, contradicting the claim (and the
source's own intent, which reads `result['targetLink']` right after). -/
theorem claim3_disk_poll_crashes :
    process_added_disk_changes 4 "inst" []
      [("2", { adapter := "default", sizeMb := 1000 })] =
    ([.createDisk "inst-disk-02" 2 (((1000 : Nat) : ℚ) / 1000)], .error .typeError) := by
  rfl

lemma tempMs_le_cap (p a : Nat) : tempMs p a ≤ 5000 :=
  min_le_left _ _

lemma tempMs_mono (p : Nat) {a b : Nat} (h : a ≤ b) : tempMs p a ≤ tempMs p b :=
  min_le_min (le_refl _)
    (Nat.mul_le_mul_left _ (Nat.pow_le_pow_right (by norm_num) h))

lemma two_dvd_tempMs (p a : Nat) : 2 ∣ tempMs p a := by
  unfold tempMs max_sleep_time
  rcases min_cases 5000 (p * 1000 * 2 ^ a) with ⟨h, _⟩ | ⟨h, _⟩
  · rw [h]; norm_num
  · rw [h]
    exact Dvd.dvd.mul_right (Dvd.dvd.mul_left (by norm_num) p) _

lemma gaussQ (n : Nat) :
    (∑ r in Finset.range (n + 1), (r : ℚ)) = n * (n + 1) / 2 := by
  induction n with
  | zero => simp
  | succ m ih =>
    rw [Finset.sum_range_succ, ih]
    push_cast
    ring

lemma nRand_cast (p a : Nat) : ((nRand p a : Nat) : ℚ) = (tempMs p a : ℚ) / 2 := by
  unfold nRand
  rw [Nat.cast_div (two_dvd_tempMs p a) (by norm_num)]
  norm_num

lemma expected_sleeptime_eq (p a : Nat) (h : 1 ≤ a) :
    expected_sleeptime p a = 3 * (tempMs p a : ℚ) / 4000 := by
  have ha : a ≠ 0 := by omega
  unfold expected_sleeptime
  have hterm : ∀ r ∈ Finset.range (nRand p a + 1),
      sleeptime p a r = (tempMs p a : ℚ) / 2000 + (r : ℚ) * (1 / 1000) := by
    intro r _
    unfold sleeptime
    rw [if_neg ha]
    ring
  rw [Finset.sum_congr rfl hterm, Finset.sum_add_distrib, Finset.sum_const,
    Finset.card_range, ← Finset.sum_mul, gaussQ]
  have hn := nRand_cast p a
  have hpos : (0 : ℚ) < (nRand p a : ℚ) + 1 := by positivity
  rw [div_eq_iff (by linarith)]
  have hn2 : ((nRand p a : Nat) : ℚ) ^ 2 = ((tempMs p a : ℚ) / 2) ^ 2 := by rw [hn]
  linear_combination (1 / 2000 : ℚ) * hn2 +
    ((1 : ℚ) / 2000 - (tempMs p a : ℚ) / 4000) * hn

lemma expected_sleeptime_mono (p a : Nat) (h : 1 ≤ a) :
    expected_sleeptime p a ≤ expected_sleeptime p (a + 1) := by
  rw [expected_sleeptime_eq p a h, expected_sleeptime_eq p (a + 1) (by omega)]
  have hm : (tempMs p a : ℚ) ≤ (tempMs p (a + 1) : ℚ) := by
    exact_mod_cast tempMs_mono p (Nat.le_succ a)
  linarith

lemma sleeptime_le_cap (p a r : Nat) (h : 1 ≤ a) (hr : r ≤ nRand p a) :
    sleeptime p a r ≤ 5 := by
  have ha : a ≠ 0 := by omega
  unfold sleeptime
  rw [if_neg ha]
  have h1 : (r : ℚ) ≤ (tempMs p a : ℚ) / 2 := by
    calc (r : ℚ) ≤ ((nRand p a : Nat) : ℚ) := by exact_mod_cast hr
    _ = (tempMs p a : ℚ) / 2 := nRand_cast p a
  have h2 : (tempMs p a : ℚ) ≤ 5000 := by exact_mod_cast tempMs_le_cap p a
  rw [div_le_iff₀ (by norm_num)]
  linarith

lemma map_range_shift (f : Nat → ℚ) (n k : Nat) :
    f k :: (List.range n).map (fun i => f (k + 1 + i)) =
      (List.range (n + 1)).map (fun i => f (k + i)) := by
  rw [List.range_succ_eq_map, List.map_cons, List.map_map]
  congr 1
  apply List.map_congr_left
  intro a _
  simp only [Function.comp_apply, Nat.succ_eq_add_one]
  congr 1
  omega

lemma gevent_sleep_trace (p : Nat) (rand : Nat → Nat) (ops : List Operation)
    (h : ∀ op ∈ ops, op.opStatus ≠ "DONE") :
    ∀ (op0 : Operation) (k : Nat), op0.opStatus ≠ "DONE" →
      (gevent_blocking_call_loop p rand op0 (ops.map some) k).1 =
        (List.range ops.length).map (fun i => sleeptime p (k + i) (rand (k + i))) := by
  induction ops with
  | nil =>
    intro op0 k h0
    simp [gevent_blocking_call_loop, h0]
  | cons op rest ih =>
    intro op0 k h0
    have hop : op.opStatus ≠ "DONE" := h op (List.mem_cons_self _ _)
    have hrest : ∀ o ∈ rest, o.opStatus ≠ "DONE" := fun o ho =>
      h o (List.mem_cons_of_mem _ ho)
    have hrec := ih hrest op (k + 1) hop
    simp only [gevent_blocking_call_loop, if_neg h0, List.map_cons, if_neg hop, hrec,
      List.length_cons]
    exact map_range_shift (fun i => sleeptime p i (rand i)) rest.length k

/-- C4 — The Operation Poller's sleep schedule: the first retry
(attempt 0) sleeps exactly 10 seconds regardless of base interval or
jitter draw; every retry with attempt `a ≥ 1` sleeps
`(temp / 2 + r) / 1000` seconds with `temp = min(5000, base·1000·2^a)`
and jitter `r`; over the uniform jitter draw the expected sleep is
non-decreasing in the attempt number and every such sleep is bounded by
the 5000 ms cap (the fixed 10 s first retry is taken before the backoff
schedule begins and is not part of it); and a full polling run over `n`
still-pending responses sleeps exactly according to this schedule at
attempts `0, …, n−1`. -/
theorem claim4_backoff_schedule :
    (∀ p r : Nat, sleeptime p 0 r = 10) ∧
    (∀ p a r : Nat, 1 ≤ a →
      sleeptime p a r = ((min 5000 (p * 1000 * 2 ^ a) : Nat) : ℚ) / 2 / 1000
        + (r : ℚ) / 1000) ∧
    (∀ p a : Nat, 1 ≤ a → expected_sleeptime p a ≤ expected_sleeptime p (a + 1)) ∧
    (∀ p a r : Nat, 1 ≤ a → r ≤ nRand p a → sleeptime p a r ≤ 5) ∧
    (∀ (p : Nat) (rand : Nat → Nat) (op0 : Operation) (ops : List Operation),
      op0.opStatus ≠ "DONE" → (∀ op ∈ ops, op.opStatus ≠ "DONE") →
      (gevent_blocking_call p rand (some op0) (ops.map some)).1 =
        (List.range ops.length).map (fun i => sleeptime p i (rand i))) := by
  refine ⟨?_, ?_, expected_sleeptime_mono, sleeptime_le_cap, ?_⟩
  · intro p r
    simp [sleeptime]
  · intro p a r h
    have ha : a ≠ 0 := by omega
    unfold sleeptime tempMs max_sleep_time
    rw [if_neg ha]
    ring
  · intro p rand op0 ops h0 hops
    unfold gevent_blocking_call
    rw [gevent_sleep_trace p rand ops hops op0 0 h0]
    simp

/-- Witness for C4 at the default polling interval of 5 seconds:
attempt 0 sleeps 10 s, the expected backoff is non-decreasing from
attempt 1 to 2, and an attempt-1 sleep with zero jitter is within the
5-second cap. -/
theorem claim4_backoff_schedule_witness :
    sleeptime 5 0 999 = 10 ∧
    expected_sleeptime 5 1 ≤ expected_sleeptime 5 2 ∧
    sleeptime 5 1 0 ≤ 5 :=
  ⟨claim4_backoff_schedule.1 5 999,
   claim4_backoff_schedule.2.2.1 5 1 (le_refl 1),
   claim4_backoff_schedule.2.2.2.1 5 1 0 (le_refl 1) (Nat.zero_le _)⟩

/-- An entry carries the primary flag if its flag string parses and the
resulting dict has a truthy `primary` value. -/
def carries_primary (e : NetworkEntry) : Bool :=
  match get_network_flags e.2.2 with
  | .ok f => f.primary.getD false
  | .error _ => false

/-- An entry carries an explicit truthy `external` flag. -/
def carries_external (e : NetworkEntry) : Bool :=
  match get_network_flags e.2.2 with
  | .ok f => f.external.getD false
  | .error _ => false

/-- The interface produced for one entry by the resolution loop: the
resolved dict, with the NAT access config when the `external` flag is
explicitly set. -/
def loop_interface (dp dr : String) (e : NetworkEntry) : NetworkInterface :=
  if carries_external e then set_external_network_access (resolved_interface dp dr e)
  else resolved_interface dp dr e

lemma network_flags_loop_error_config (toks : List (List Char)) (acc : NetworkFlags)
    (e : Err) (h : network_flags_loop toks acc = .error e) :
    ∃ msg, e = .configurationError msg := by
  induction toks generalizing acc with
  | nil => simp [network_flags_loop] at h
  | cons t rest ih =>
    unfold network_flags_loop at h
    split at h
    · exact ih _ h
    · split at h
      · exact ih _ h
      · split at h
        · exact ih _ h
        · split at h
          · exact ih _ h
          · injection h with h2
            exact ⟨_, h2.symm⟩

lemma get_network_flags_error_config (args : Option String) (e : Err)
    (h : get_network_flags args = .error e) : ∃ msg, e = .configurationError msg := by
  cases args with
  | none => simp [get_network_flags] at h
  | some s => exact network_flags_loop_error_config _ _ _ h

lemma get_network_interface_error_config (dp dr : String) (net : NetworkEntry)
    (e : Err) (h : get_network_interface dp dr net = .error e) :
    ∃ msg, e = .configurationError msg := by
  unfold get_network_interface at h
  cases hf : get_network_flags net.2.2 with
  | error e2 =>
    rw [hf] at h
    cases h
    exact get_network_flags_error_config _ _ hf
  | ok flags => rw [hf] at h; cases h

lemma process_networks_dup_primary (dp dr : String) :
    ∀ (networks : List NetworkEntry) (acc : Option NetworkEntry),
      (if acc.isSome then 1 else 2) ≤ networks.countP carries_primary →
      ∃ msg, process_networks dp dr networks acc = .error (.configurationError msg) := by
  intro networks
  induction networks with
  | nil =>
    intro acc h
    simp [List.countP_nil] at h
    split at h <;> omega
  | cons e rest ih =>
    intro acc h
    cases hi : get_network_interface dp dr e with
    | error err =>
      obtain ⟨msg, rfl⟩ := get_network_interface_error_config dp dr e err hi
      exact ⟨msg, by simp [process_networks, hi]⟩
    | ok pr =>
      obtain ⟨ni, flags⟩ := pr
      have hflags : get_network_flags e.2.2 = .ok flags := by
        unfold get_network_interface at hi
        cases hf : get_network_flags e.2.2 with
        | error e2 => rw [hf] at hi; cases hi
        | ok f2 => rw [hf] at hi; cases hi; rfl
      have hcp : carries_primary e = flags.primary.getD false := by
        simp [carries_primary, hflags]
      by_cases hp : flags.primary.getD false
      · cases acc with
        | some prev =>
          exact ⟨"Only one interface may be primary",
            by simp [process_networks, hi, hp]⟩
        | none =>
          have hce : carries_primary e = true := by rw [hcp]; exact hp
          have hcount : 1 ≤ rest.countP carries_primary := by
            rw [List.countP_cons] at h
            simp only [hce, if_true] at h
            have h2 : (2 : Nat) ≤ rest.countP carries_primary + 1 := by simpa using h
            omega
          obtain ⟨msg, hmsg⟩ := ih (some e) (by simpa using hcount)
          exact ⟨msg, by simp [process_networks, hi, hp, hmsg]⟩
      · have hce : carries_primary e = false := by
          rw [hcp]
          simpa using hp
        have hcount : (if acc.isSome then 1 else 2) ≤ rest.countP carries_primary := by
          rw [List.countP_cons] at h
          simp only [hce, if_false] at h
          simpa using h
        obtain ⟨msg, hmsg⟩ := ih acc hcount
        exact ⟨msg, by simp [process_networks, hi, hp, hmsg]⟩

lemma process_networks_ok (dp dr : String) :
    ∀ (networks : List NetworkEntry) (acc : Option NetworkEntry),
      (∀ e ∈ networks, (get_network_flags e.2.2).isOk) →
      networks.countP carries_primary ≤ (if acc.isSome then 0 else 1) →
      process_networks dp dr networks acc =
        .ok (networks.map (loop_interface dp dr)) := by
  intro networks
  induction networks with
  | nil => intro acc _ _; rfl
  | cons e rest ih =>
    intro acc hok hcnt
    have he := hok e (List.mem_cons_self _ _)
    cases hf : get_network_flags e.2.2 with
    | error err => rw [hf] at he; simp [Except.isOk, Except.toBool] at he
    | ok flags =>
      have hi : get_network_interface dp dr e =
          .ok (resolved_interface dp dr e, flags) := by
        unfold get_network_interface
        rw [hf]
      have hrest : ∀ x ∈ rest, (get_network_flags x.2.2).isOk := fun x hx =>
        hok x (List.mem_cons_of_mem _ hx)
      have hli : (if is_external_set flags false then
          set_external_network_access (resolved_interface dp dr e)
        else resolved_interface dp dr e) = loop_interface dp dr e := by
        unfold loop_interface carries_external is_external_set
        rw [hf]
      by_cases hp : flags.primary.getD false
      · have hce : carries_primary e = true := by
          unfold carries_primary
          rw [hf]
          exact hp
        cases acc with
        | some prev =>
          exfalso
          rw [List.countP_cons, hce] at hcnt
          simp at hcnt
        | none =>
          have hcnt2 : rest.countP carries_primary ≤ 0 := by
            rw [List.countP_cons, hce] at hcnt
            have h2 : rest.countP carries_primary + 1 ≤ 1 := by simpa using hcnt
            omega
          have hrec := ih (some e) hrest (by simpa using hcnt2)
          simp [process_networks, hi, hp, hrec, hli]
      · rw [Bool.not_eq_true] at hp
        have hce : carries_primary e = false := by
          unfold carries_primary
          rw [hf]
          exact hp
        have hcnt2 : rest.countP carries_primary ≤ (if acc.isSome then 0 else 1) := by
          rw [List.countP_cons, hce] at hcnt
          simpa using hcnt
        have hrec := ih acc hrest hcnt2
        simp [process_networks, hi, hp, hrec, hli]

lemma enable_external_non_single (networks : List NetworkEntry)
    (h : networks.length ≠ 1) (ifaces : List NetworkInterface) :
    enable_external_network_access networks ifaces = .ok ifaces := by
  match networks, ifaces with
  | [], _ => rfl
  | [e], i0 :: rest => exact absurd rfl h
  | [e], [] => rfl
  | e1 :: e2 :: rest, _ => rfl

lemma resolved_interface_access (dp dr : String) (e : NetworkEntry) :
    (resolved_interface dp dr e).accessConfigs = false := by
  unfold resolved_interface
  match e with
  | (nd, none, args) => rfl
  | (nd, some sd, args) =>
    by_cases hsd : sd = ""
    · simp [hsd]
    · simp [hsd]

lemma loop_interface_access (dp dr : String) (e : NetworkEntry) :
    (loop_interface dp dr e).accessConfigs = carries_external e := by
  unfold loop_interface
  by_cases hc : carries_external e
  · simp [hc, set_external_network_access]
  · rw [Bool.not_eq_true] at hc
    simp [hc, resolved_interface_access]

/-- C10 — Network interface resolution raises `ConfigurationError`
whenever two or more entries carry the primary flag (either at the
duplicate-primary check or already at an earlier entry's flag parse,
which also raises `ConfigurationError`), and resolves without error any
configuration whose flag strings parse and in which no entry is marked
primary. -/
theorem claim10_primary_validation :
    (∀ (project region : String) (networks : List NetworkEntry),
      2 ≤ networks.countP carries_primary →
      ∃ msg, get_network_interface_definitions project region networks =
        .error (.configurationError msg)) ∧
    (∀ (project region : String) (networks : List NetworkEntry),
      (∀ e ∈ networks, (get_network_flags e.2.2).isOk) →
      networks.countP carries_primary = 0 →
      ∃ l, get_network_interface_definitions project region networks = .ok l) := by
  constructor
  · intro project region networks h
    obtain ⟨msg, hmsg⟩ := process_networks_dup_primary project region networks none
      (by simpa using h)
    exact ⟨msg, by simp [get_network_interface_definitions, hmsg]⟩
  · intro project region networks hok hzero
    have hproc := process_networks_ok project region networks none hok
      (by simp [hzero])
    unfold get_network_interface_definitions
    rw [hproc]
    match networks, hok with
    | [], _ => exact ⟨_, rfl⟩
    | [e], hok =>
      have he := hok e (List.mem_cons_self _ _)
      cases hf : get_network_flags e.2.2 with
      | error err => rw [hf] at he; simp [Except.isOk, Except.toBool] at he
      | ok flags =>
        by_cases hd : e.1 = "default"
        · exact ⟨[set_external_network_access (loop_interface project region e)],
            by simp [enable_external_network_access, hd]⟩
        · cases hx : is_external_set flags true with
          | true =>
            exact ⟨[set_external_network_access (loop_interface project region e)],
              by simp [enable_external_network_access, hd, hf, hx]⟩
          | false =>
            exact ⟨[loop_interface project region e],
              by simp [enable_external_network_access, hd, hf, hx]⟩
    | e1 :: e2 :: rest, _ =>
      show ∃ l, enable_external_network_access (e1 :: e2 :: rest)
        (List.map (loop_interface project region) (e1 :: e2 :: rest)) = .ok l
      rw [enable_external_non_single _ (by simp) _]
      exact ⟨_, rfl⟩

/-- Witness for C10: a two-entry configuration with `pri` and `primary`
flags is rejected, and a flagless two-entry configuration resolves. -/
theorem claim10_primary_validation_witness :
    (∃ msg, get_network_interface_definitions "p" "r"
      [("default", none, some "pri"), ("corp", none, some "primary")] =
      .error (.configurationError msg)) ∧
    (∃ l, get_network_interface_definitions "p" "r"
      [("default", none, none), ("corp", none, some "ext")] = .ok l) :=
  ⟨claim10_primary_validation.1 "p" "r" _ (by rfl),
   claim10_primary_validation.2 "p" "r" _
     (by intro e he; fin_cases he <;> rfl) (by rfl)⟩

/-- C6 — counterexample: a single-network configuration using the
default network with an explicit `noext` flag still receives external
access.  The parsed flags are `{external := false}`, yet
`enable_external_network_access` short-circuits on
`network_def == 'default'` and attaches the NAT access config, so the
explicit `noext` is not honoured on the default network, contrary to the
claim. -/
theorem claim6_noext_on_default_not_suppressed :
    (get_network_flags (some "noext") = .ok { external := some false }) ∧
    (get_network_interface_definitions "p" "r" [("default", none, some "noext")]).map
      (List.map NetworkInterface.accessConfigs) = .ok [true] := by
  exact ⟨rfl, rfl⟩

/-- C6 (amended) — Single-network external-access policy as implemented:
a single entry on the `default` network always gets the NAT access
config, even when `noext` is set; a single entry on a non-default
network gets it exactly when its `external` flag is not explicitly
false (`flags.get('external', True)`), so `noext` suppresses it only
off the default network; in a configuration that is not single-network,
each interface gets the access config exactly when its own `ext` flag is
set (`loop_interface`/`carries_external`). -/
theorem claim6_external_access_amended :
    (∀ (dp dr : String) (e : NetworkEntry) (flags : NetworkFlags),
      get_network_flags e.2.2 = .ok flags → e.1 = "default" →
      get_network_interface_definitions dp dr [e] =
        .ok [set_external_network_access (loop_interface dp dr e)]) ∧
    (∀ (dp dr : String) (e : NetworkEntry) (flags : NetworkFlags),
      get_network_flags e.2.2 = .ok flags → e.1 ≠ "default" →
      ∃ ni, get_network_interface_definitions dp dr [e] = .ok [ni] ∧
        ni.accessConfigs = is_external_set flags true) ∧
    (∀ (dp dr : String) (networks : List NetworkEntry),
      networks.length ≠ 1 →
      (∀ e ∈ networks, (get_network_flags e.2.2).isOk) →
      networks.countP carries_primary ≤ 1 →
      get_network_interface_definitions dp dr networks =
        .ok (networks.map (loop_interface dp dr))) ∧
    (∀ (dp dr : String) (e : NetworkEntry),
      (loop_interface dp dr e).accessConfigs = carries_external e) := by
  have hsingle : ∀ (dp dr : String) (e : NetworkEntry) (flags : NetworkFlags),
      get_network_flags e.2.2 = .ok flags →
      process_networks dp dr [e] none = .ok [loop_interface dp dr e] := by
    intro dp dr e flags hf
    have := process_networks_ok dp dr [e] none
      (by
        intro x hx
        rw [List.mem_singleton] at hx
        subst hx
        rw [hf]
        rfl)
      (by simpa using @List.countP_le_length NetworkEntry carries_primary [e])
    simpa using this
  refine ⟨?_, ?_, ?_, loop_interface_access⟩
  · intro dp dr e flags hf hd
    unfold get_network_interface_definitions
    rw [hsingle dp dr e flags hf]
    simp [enable_external_network_access, hd]
  · intro dp dr e flags hf hd
    unfold get_network_interface_definitions
    rw [hsingle dp dr e flags hf]
    cases hx : is_external_set flags true with
    | true =>
      refine ⟨set_external_network_access (loop_interface dp dr e), ?_, ?_⟩
      · simp [enable_external_network_access, hd, hf, hx]
      · simp [set_external_network_access, hx]
    | false =>
      have hsf : flags.external = some false := by
        unfold is_external_set at hx
        cases hext : flags.external with
        | none => rw [hext] at hx; simp at hx
        | some b => rw [hext] at hx; simp at hx; rw [hx]
      refine ⟨loop_interface dp dr e, ?_, ?_⟩
      · simp [enable_external_network_access, hd, hf, hx]
      · rw [loop_interface_access]
        unfold carries_external
        rw [hf]
        show flags.external.getD false = false
        rw [hsf]
        rfl
  · intro dp dr networks hlen hok hcnt
    unfold get_network_interface_definitions
    rw [process_networks_ok dp dr networks none hok (by simpa using hcnt)]
    show enable_external_network_access networks
        (List.map (loop_interface dp dr) networks) =
      Except.ok (List.map (loop_interface dp dr) networks)
    exact enable_external_non_single networks hlen _

/-- Witness for C6 (amended) at concrete configurations: `noext` on the
single default network (access still granted), `noext` on a single
non-default network (access suppressed: `flags.get('external', True)` is
false), and a two-network batch (per-entry `ext` flag decides). -/
theorem claim6_external_access_amended_witness :
    get_network_interface_definitions "p" "r" [("default", none, some "noext")] =
      .ok [set_external_network_access
        (loop_interface "p" "r" ("default", none, some "noext"))] ∧
    (∃ ni, get_network_interface_definitions "p" "r" [("corp", none, some "noext")] =
      .ok [ni] ∧
      ni.accessConfigs = is_external_set { external := some false } true) ∧
    get_network_interface_definitions "p" "r" [("a", none, none), ("b", none, some "ext")] =
      .ok ([(("a" : String), (none : Option String), (none : Option String)),
            (("b" : String), (none : Option String), some ("ext" : String))].map
        (loop_interface "p" "r")) :=
  ⟨claim6_external_access_amended.1 "p" "r" ("default", none, some "noext")
      { external := some false } rfl rfl,
   claim6_external_access_amended.2.1 "p" "r" ("corp", none, some "noext")
      { external := some false } rfl (by decide),
   claim6_external_access_amended.2.2.1 "p" "r" _
      (by decide)
      (by intro e he; fin_cases he <;> rfl)
      (by decide)⟩

/-- Jitter stream used in concrete scenarios (always drawing 0). -/
def rand0 : Nat → Nat := fun _ => 0

/-- An already-terminal successful operation response. -/
def doneOp : Operation := { opStatus := "DONE" }

/-- An already-terminal operation response carrying an `error` field. -/
def errorOp : Operation :=
  { opStatus := "DONE", hasError := true, errors := [("boom", "500")] }

lemma gevent_wait_ok_node (p : Nat) (rand : Nat → Nat)
    (fetches : List (Option Operation)) (req req2 : NodeRequest) (b : Bool)
    (h : gevent_wait_for_instance p rand fetches req = .ok (req2, b)) :
    req2.node = req.node := by
  unfold gevent_wait_for_instance at h
  split at h
  · cases h
  · split at h
    · cases h
    · cases h
    · injection h with h1
      rw [Prod.mk.injEq] at h1
      rw [← h1.1]

/-- C7 — counterexample: a request whose instance launches successfully
(terminal operation with no `error` field) but whose post-launch hook
raises (first network interface lacks the `networkIP` key) has its status
written `'success'` by `gevent_wait_for_instance` and then rewritten
`'error'` by the hook-failure handler: a request that reached Success
transitions onward to Error, contradicting the claimed monotonic state
machine in which Success is terminal. -/
theorem claim7_success_demoted_to_error :
    (wait_for_instance 5 rand0
      { fetches := [], vm := some { networkInterfaces := [{ networkIP := none }] } }
      { node := 2, response := some doneOp }).2.2 = ["success", "error"] ∧
    (wait_for_instance 5 rand0
      { fetches := [], vm := some { networkInterfaces := [{ networkIP := none }] } }
      { node := 2, response := some doneOp }).1.status = "error" := by
  exact ⟨rfl, rfl⟩

/-- C7 (amended) — Per-request status writes form the machine
Pending → {Success, Error} with one exception: a request marked Success
during the wait phase is demoted to Error when its post-launch hook
raises.  Concretely, the sequence of writes to the `status` field made
by `__wait_for_instance` is one of `[error]` (exception during polling),
`[error, error]` (launch failed: the classifier writes `error` and the
failure handler rewrites it), `[success]` (launched, hook ok),
`[success, error]` (launched, hook raised, instance deleted), or
`[success, error, error]` (launched, hook raised, and the instance
deletion itself failed with `CommandFailed`, caught by the outer
handler); Error is only ever followed by Error, Pending is never
re-entered, and no `submitted` status value exists (submission is
tracked by the `response` key). -/
theorem claim7_status_writes_amended :
    ∀ (p : Nat) (rand : Nat → Nat) (w : ReqWorld) (req : NodeRequest),
      ((wait_for_instance p rand w req).2.2 = ["error"] ∨
       (wait_for_instance p rand w req).2.2 = ["error", "error"] ∨
       (wait_for_instance p rand w req).2.2 = ["success"] ∨
       (wait_for_instance p rand w req).2.2 = ["success", "error"] ∨
       (wait_for_instance p rand w req).2.2 = ["success", "error", "error"]) ∧
      ((wait_for_instance p rand w req).2.2 = ["success", "error"] →
        ∃ er, (instance_post_launch req.node w.vm).2 = .error er) ∧
      ((wait_for_instance p rand w req).2.2 = ["success", "error", "error"] →
        (∃ er, (instance_post_launch req.node w.vm).2 = .error er) ∧
        w.deleteRaises = true) := by
  intro p rand w req
  unfold wait_for_instance
  cases hg : gevent_wait_for_instance p rand w.fetches req with
  | error e =>
    refine ⟨Or.inl rfl, ?_, ?_⟩ <;> intro hw <;> simp at hw
  | ok rb =>
    obtain ⟨req2, launched⟩ := rb
    have hnode : req2.node = req.node := gevent_wait_ok_node _ _ _ _ _ _ hg
    cases launched with
    | false =>
      refine ⟨Or.inr (Or.inl rfl), ?_, ?_⟩ <;> intro hw <;> simp at hw
    | true =>
      cases hpost : instance_post_launch req2.node w.vm with
      | mk effs r =>
        cases r with
        | ok u =>
          simp only [hpost]
          refine ⟨Or.inr (Or.inr (Or.inl rfl)), ?_, ?_⟩ <;> intro hw <;> simp at hw
        | error er =>
          simp only [hpost]
          by_cases hd : w.deleteRaises = true
          · rw [if_pos hd]
            refine ⟨Or.inr (Or.inr (Or.inr (Or.inr rfl))), ?_, ?_⟩
            · intro hw
              simp at hw
            · intro _
              rw [← hnode]
              exact ⟨⟨er, by rw [hpost]⟩, hd⟩
          · rw [if_neg hd]
            refine ⟨Or.inr (Or.inr (Or.inr (Or.inl rfl))), ?_, ?_⟩
            · intro _
              rw [← hnode]
              exact ⟨er, by rw [hpost]⟩
            · intro hw
              simp at hw

/-- C8 — counterexample: an instance whose description has an empty
`networkInterfaces` list (no address at all) makes
`__get_instance_internal_ip` return `None`; `__instance_post_launch`
logs and returns without raising, so the request keeps the `'success'`
status written by the wait classifier — the missing address is not a
hard failure, contradicting the claim. -/
theorem claim8_no_address_stays_success :
    (wait_for_instance 5 rand0
      { fetches := [], vm := some { networkInterfaces := [] } }
      { node := 1, response := some doneOp }).1.status = "success" ∧
    (wait_for_instance 5 rand0
      { fetches := [], vm := some { networkInterfaces := [] } }
      { node := 1, response := some doneOp }).2.1 =
      [.setNodeState 1 "Installed"] := by
  exact ⟨rfl, rfl⟩

/-- C8 (amended) — The post-launch hook extracts the first network
interface's internal address and registers it (NIC append and
`_pre_add_host`); an instance with an empty interface list is only
logged and the request still ends in Success (no NIC, no registration);
a hard failure occurs instead when the first interface exists but lacks
the `networkIP` key (`KeyError`), which marks the request Error and
deletes the instance. -/
theorem claim8_missing_address_amended :
    (∀ (node : Nat) (ip : String) (rest : List NetIface),
      instance_post_launch node
        (some { networkInterfaces := { networkIP := some ip } :: rest }) =
      ([.setNodeState node "Installed", .addNic node ip, .preAddHost node ip],
       .ok ())) ∧
    (∀ (p : Nat) (rand : Nat → Nat) (req req2 : NodeRequest) (w : ReqWorld),
      gevent_wait_for_instance p rand w.fetches req = .ok (req2, true) →
      w.vm = some { networkInterfaces := [] } →
      (wait_for_instance p rand w req).1.status = "success" ∧
      (wait_for_instance p rand w req).2.1 = [.setNodeState req2.node "Installed"]) ∧
    (∀ (p : Nat) (rand : Nat → Nat) (req req2 : NodeRequest) (w : ReqWorld)
        (rest : List NetIface),
      gevent_wait_for_instance p rand w.fetches req = .ok (req2, true) →
      w.vm = some { networkInterfaces := { networkIP := none } :: rest } →
      (wait_for_instance p rand w req).1.status = "error" ∧
      Effect.deleteInstance req2.node ∈ (wait_for_instance p rand w req).2.1) := by
  refine ⟨?_, ?_, ?_⟩
  · intro node ip rest
    rfl
  · intro p rand req req2 w hg hvm
    have hst : req2.status = "success" := by
      unfold gevent_wait_for_instance at hg
      split at hg
      · cases hg
      · split at hg
        · cases hg
        · cases hg
        · rename_i result heqsplit
          injection hg with h1
          rw [Prod.mk.injEq] at h1
          by_cases he : result.hasError
          · exfalso
            have h2 := h1.2
            simp [he] at h2
          · rw [← h1.1]
            simp [he]
    constructor
    · unfold wait_for_instance
      rw [hg]
      simp only [if_true]
      rw [hvm]
      simp [instance_post_launch, get_instance_internal_ip, hst]
    · unfold wait_for_instance
      rw [hg]
      simp only [if_true]
      rw [hvm]
      simp [instance_post_launch, get_instance_internal_ip]
  · intro p rand req req2 w rest hg hvm
    constructor
    · unfold wait_for_instance
      rw [hg]
      simp only [if_true]
      rw [hvm]
      by_cases hd : w.deleteRaises = true <;>
        simp [instance_post_launch, get_instance_internal_ip,
          mark_node_request_failed, hd]
    · unfold wait_for_instance
      rw [hg]
      simp only [if_true]
      rw [hvm]
      by_cases hd : w.deleteRaises = true <;>
        simp [instance_post_launch, get_instance_internal_ip, hd]

/-- Witness for C7 (amended) on concrete hook-failure runs: the write
sequence is one of the five shapes; the `[success, error]` shape comes
with a raised post-launch hook, and on a world whose instance deletion
also fails the `[success, error, error]` shape comes with both the
raised hook and the failing deletion. -/
theorem claim7_status_writes_amended_witness :
    ((wait_for_instance 5 rand0
        { fetches := [], vm := some { networkInterfaces := [{ networkIP := none }] } }
        { node := 2, response := some doneOp }).2.2 = ["error"] ∨
     (wait_for_instance 5 rand0
        { fetches := [], vm := some { networkInterfaces := [{ networkIP := none }] } }
        { node := 2, response := some doneOp }).2.2 = ["error", "error"] ∨
     (wait_for_instance 5 rand0
        { fetches := [], vm := some { networkInterfaces := [{ networkIP := none }] } }
        { node := 2, response := some doneOp }).2.2 = ["success"] ∨
     (wait_for_instance 5 rand0
        { fetches := [], vm := some { networkInterfaces := [{ networkIP := none }] } }
        { node := 2, response := some doneOp }).2.2 = ["success", "error"] ∨
     (wait_for_instance 5 rand0
        { fetches := [], vm := some { networkInterfaces := [{ networkIP := none }] } }
        { node := 2, response := some doneOp }).2.2 = ["success", "error", "error"]) ∧
    (∃ er, (instance_post_launch 2
        (some { networkInterfaces := [{ networkIP := none }] })).2 = .error er) ∧
    ((∃ er, (instance_post_launch 2
        (some { networkInterfaces := [{ networkIP := none }] })).2 = .error er) ∧
     (ReqWorld.deleteRaises
        { fetches := [], vm := some { networkInterfaces := [{ networkIP := none }] },
          deleteRaises := true }) = true) :=
  ⟨(claim7_status_writes_amended 5 rand0
      { fetches := [], vm := some { networkInterfaces := [{ networkIP := none }] } }
      { node := 2, response := some doneOp }).1,
   (claim7_status_writes_amended 5 rand0
      { fetches := [], vm := some { networkInterfaces := [{ networkIP := none }] } }
      { node := 2, response := some doneOp }).2.1 rfl,
   (claim7_status_writes_amended 5 rand0
      { fetches := [], vm := some { networkInterfaces := [{ networkIP := none }] },
        deleteRaises := true }
      { node := 2, response := some doneOp }).2.2 rfl⟩

/-- Witness for C8 (amended) on a concrete run whose first interface
lacks the `networkIP` key: the request ends in Error and its instance is
deleted. -/
theorem claim8_missing_address_amended_witness :
    (wait_for_instance 5 rand0
      { fetches := [], vm := some { networkInterfaces := [{ networkIP := none }] } }
      { node := 3, response := some doneOp }).1.status = "error" ∧
    Effect.deleteInstance 3 ∈ (wait_for_instance 5 rand0
      { fetches := [], vm := some { networkInterfaces := [{ networkIP := none }] } }
      { node := 3, response := some doneOp }).2.1 :=
  claim8_missing_address_amended.2.2 5 rand0
    { node := 3, response := some doneOp }
    { node := 3, status := "success", message := none, response := some doneOp,
      result := some doneOp }
    { fetches := [], vm := some { networkInterfaces := [{ networkIP := none }] } }
    [] rfl rfl

lemma process_deleted_effect_shape (node : Nat) (removed : List (String × AddedDisk)) :
    ∀ eff ∈ (process_deleted_disk_changes node removed).1,
      ∃ i, eff = .sanDeleteDrive node i := by
  intro eff heff
  unfold process_deleted_disk_changes at heff
  cases hm : removed.mapM (fun kv => (pyToNat? kv.1.data).map (fun n => (n, kv.2))) with
  | none => rw [hm] at heff; simp at heff
  | some pairs =>
    rw [hm] at heff
    simp only [List.mem_filterMap] at heff
    obtain ⟨pr, _, hpr⟩ := heff
    by_cases hd : pr.2.adapter = "default"
    · rw [if_pos hd] at hpr
      cases hpr
      exact ⟨pr.1, rfl⟩
    · rw [if_neg hd] at hpr
      cases hpr

lemma post_launch_go_ok (removedOf : Nat → List (String × AddedDisk))
    (queue : List NodeRequest)
    (h : ∀ n, (process_deleted_disk_changes n (removedOf n)).2 = .ok ()) :
    (post_launch_go removedOf queue).2 =
      .ok ((queue.filter (fun r => r.status == "success")).map NodeRequest.node,
           (queue.filter (fun r => r.status == "success")).length) := by
  induction queue with
  | nil => rfl
  | cons req rest ih =>
    by_cases hs : req.status = "success"
    · have hsb : (req.status == "success") = true := by simp [hs]
      simp [post_launch_go, hs, hsb, ih, List.filter_cons, Except.map]
    · have hsb : (req.status == "success") = false := by simp [hs]
      simp [post_launch_go, hs, hsb, node_cleanup, h req.node, ih, List.filter_cons]

lemma post_launch_go_effect_mem (removedOf : Nat → List (String × AddedDisk))
    (queue : List NodeRequest)
    (h : ∀ n, (process_deleted_disk_changes n (removedOf n)).2 = .ok ()) :
    ∀ req ∈ queue,
      (req.status ≠ "success" →
        Effect.clearSessionNode req.node ∈ (post_launch_go removedOf queue).1 ∧
        Effect.dbDeleteNode req.node ∈ (post_launch_go removedOf queue).1) ∧
      (req.status = "success" →
        Effect.setNodeState req.node "Provisioned" ∈ (post_launch_go removedOf queue).1 ∧
        Effect.fireProvisioned req.node ∈ (post_launch_go removedOf queue).1) := by
  induction queue with
  | nil => intro req hreq; cases hreq
  | cons hd rest ih =>
    intro req hreq
    rw [List.mem_cons] at hreq
    by_cases hs : hd.status = "success"
    · have hgo : (post_launch_go removedOf (hd :: rest)).1 =
          .setNodeState hd.node "Provisioned" :: .fireProvisioned hd.node ::
            (post_launch_go removedOf rest).1 := by
        simp [post_launch_go, hs]
      rw [hgo]
      rcases hreq with rfl | hmem
      · exact ⟨fun hne => absurd hs hne, fun _ => ⟨by simp, by simp⟩⟩
      · have := ih req hmem
        refine ⟨fun hne => ?_, fun hse => ?_⟩
        · obtain ⟨h1, h2⟩ := this.1 hne
          exact ⟨by simp [h1], by simp [h2]⟩
        · obtain ⟨h1, h2⟩ := this.2 hse
          exact ⟨by simp [h1], by simp [h2]⟩
    · have hgo : (post_launch_go removedOf (hd :: rest)).1 =
          (node_cleanup hd.node (removedOf hd.node)).1 ++
            .dbDeleteNode hd.node :: (post_launch_go removedOf rest).1 := by
        simp [post_launch_go, hs, node_cleanup, h hd.node]
      rw [hgo]
      rcases hreq with rfl | hmem
      · refine ⟨fun _ => ⟨?_, ?_⟩, fun hse => absurd hse hs⟩
        · apply List.mem_append_left
          simp [node_cleanup]
        · apply List.mem_append_right
          simp
      · have := ih req hmem
        refine ⟨fun hne => ?_, fun hse => ?_⟩
        · obtain ⟨h1, h2⟩ := this.1 hne
          exact ⟨List.mem_append_right _ (by simp [h1]),
                 List.mem_append_right _ (by simp [h2])⟩
        · obtain ⟨h1, h2⟩ := this.2 hse
          exact ⟨List.mem_append_right _ (by simp [h1]),
                 List.mem_append_right _ (by simp [h2])⟩

lemma post_launch_go_effect_shape (removedOf : Nat → List (String × AddedDisk))
    (queue : List NodeRequest) :
    ∀ eff ∈ (post_launch_go removedOf queue).1,
      (∃ n, eff = .clearSessionNode n) ∨ (∃ n i, eff = .sanDeleteDrive n i) ∨
      (∃ n, eff = .dbDeleteNode n) ∨ (∃ n, eff = .setNodeState n "Provisioned") ∨
      (∃ n, eff = .fireProvisioned n) := by
  induction queue with
  | nil => intro eff heff; cases heff
  | cons hd rest ih =>
    intro eff heff
    by_cases hs : hd.status = "success"
    · rw [show (post_launch_go removedOf (hd :: rest)).1 =
          .setNodeState hd.node "Provisioned" :: .fireProvisioned hd.node ::
            (post_launch_go removedOf rest).1 from by simp [post_launch_go, hs]] at heff
      rcases heff with _ | ⟨_, (_ | ⟨_, hmem⟩)⟩
      · exact Or.inr (Or.inr (Or.inr (Or.inl ⟨hd.node, rfl⟩)))
      · exact Or.inr (Or.inr (Or.inr (Or.inr ⟨hd.node, rfl⟩)))
      · exact ih eff hmem
    · cases hres : (process_deleted_disk_changes hd.node (removedOf hd.node)).2 with
      | ok u =>
        rw [show (post_launch_go removedOf (hd :: rest)).1 =
            (node_cleanup hd.node (removedOf hd.node)).1 ++
              .dbDeleteNode hd.node :: (post_launch_go removedOf rest).1 from by
          simp [post_launch_go, hs, node_cleanup, hres]] at heff
        rw [List.mem_append] at heff
        rcases heff with hmem | hmem
        · simp only [node_cleanup, List.mem_cons] at hmem
          rcases hmem with rfl | hmem
          · exact Or.inl ⟨hd.node, rfl⟩
          · obtain ⟨i, rfl⟩ := process_deleted_effect_shape hd.node _ _ hmem
            exact Or.inr (Or.inl ⟨hd.node, i, rfl⟩)
        · rcases hmem with _ | ⟨_, hmem⟩
          · exact Or.inr (Or.inr (Or.inl ⟨hd.node, rfl⟩))
          · exact ih eff hmem
      | error er =>
        rw [show (post_launch_go removedOf (hd :: rest)).1 =
            (node_cleanup hd.node (removedOf hd.node)).1 from by
          simp [post_launch_go, hs, node_cleanup, hres]] at heff
        simp only [node_cleanup, List.mem_cons] at heff
        rcases heff with rfl | hmem
        · exact Or.inl ⟨hd.node, rfl⟩
        · obtain ⟨i, rfl⟩ := process_deleted_effect_shape hd.node _ _ hmem
          exact Or.inr (Or.inl ⟨hd.node, i, rfl⟩)

lemma post_launch_action_parts (removedOf : Nat → List (String × AddedDisk))
    (queue : List NodeRequest)
    (h : ∀ n, (process_deleted_disk_changes n (removedOf n)).2 = .ok ()) :
    (post_launch_action removedOf queue).2 =
      .ok ((queue.filter (fun r => r.status == "success")).map NodeRequest.node) ∧
    (post_launch_action removedOf queue).1 =
      (post_launch_go removedOf queue).1 ++ [Effect.dbCommit] ++
        (if 0 < (queue.filter (fun r => r.status == "success")).length ∧
            (queue.filter (fun r => r.status == "success")).length < queue.length then
          [Effect.partialWarning
            (queue.filter (fun r => r.status == "success")).length queue.length]
        else []) := by
  unfold post_launch_action
  rw [post_launch_go_ok removedOf queue h]
  by_cases hw : 0 < (queue.filter (fun r => r.status == "success")).length ∧
      (queue.filter (fun r => r.status == "success")).length < queue.length
  · simp [hw]
  · simp [hw]

lemma post_launch_action_no_instance_delete (removedOf : Nat → List (String × AddedDisk))
    (queue : List NodeRequest) (n : Nat) :
    Effect.deleteInstance n ∉ (post_launch_action removedOf queue).1 := by
  intro hmem
  unfold post_launch_action at hmem
  have hshape := post_launch_go_effect_shape removedOf queue
  cases hgo : (post_launch_go removedOf queue).2 with
  | error e =>
    rw [hgo] at hmem
    simp only at hmem
    rcases hshape _ hmem with ⟨m, hm⟩ | ⟨m, i, hm⟩ | ⟨m, hm⟩ | ⟨m, hm⟩ | ⟨m, hm⟩ <;> cases hm
  | ok rc =>
    obtain ⟨ns, completed⟩ := rc
    rw [hgo] at hmem
    simp only at hmem
    split at hmem
    · rw [List.mem_append] at hmem
      rcases hmem with hmem | hmem
      · rw [List.mem_append] at hmem
        rcases hmem with hmem | hmem
        · rcases hshape _ hmem with ⟨m, hm⟩ | ⟨m, i, hm⟩ | ⟨m, hm⟩ | ⟨m, hm⟩ | ⟨m, hm⟩ <;>
            cases hm
        · simp at hmem
      · simp at hmem
    · rw [List.mem_append] at hmem
      rcases hmem with hmem | hmem
      · rcases hshape _ hmem with ⟨m, hm⟩ | ⟨m, i, hm⟩ | ⟨m, hm⟩ | ⟨m, hm⟩ | ⟨m, hm⟩ <;>
          cases hm
      · simp at hmem

lemma instance_post_launch_no_delete (m : Nat) (vm : Option VmInstance) (n : Nat) :
    Effect.deleteInstance n ∉ (instance_post_launch m vm).1 := by
  intro hmem
  unfold instance_post_launch at hmem
  split at hmem
  · simp at hmem
  · split at hmem <;> simp at hmem

lemma gevent_wait_ok_status (p : Nat) (rand : Nat → Nat)
    (fetches : List (Option Operation)) (req req2 : NodeRequest) (b : Bool)
    (h : gevent_wait_for_instance p rand fetches req = .ok (req2, b)) :
    req2.status = if b then "success" else "error" := by
  unfold gevent_wait_for_instance at h
  split at h
  · cases h
  · split at h
    · cases h
    · cases h
    · rename_i result heq2
      injection h with h1
      rw [Prod.mk.injEq] at h1
      by_cases he : result.hasError
      · rw [← h1.1, ← h1.2]
        simp [he]
      · rw [← h1.1, ← h1.2]
        simp [he]

/-- C2 — counterexample: a batch with one request whose create operation
ends with an `error` field, while its cloud instance (node 7) exists.
The request ends in Error and the reconciliation deletes the node record
and storage-catalog entries, but issues no cloud-instance deletion, so
the instance lingers after the batch call — contradicting the claimed
"deletes its cloud instance if one exists" rollback completeness. -/
theorem claim2_lingering_instance :
    ((add_active_nodes_wait_and_post 5 rand0 (fun _ => [])
        [({ node := 7, response := some errorOp }, { fetches := [], vm := none })]).2 =
      .error (.commandFailed "Fatal error launching one or more instances")) ∧
    ((wait_phase 5 rand0
        [({ node := 7, response := some errorOp }, { fetches := [], vm := none })]).map
      (fun x => x.1.status) = ["error"]) ∧
    Effect.dbDeleteNode 7 ∈ (add_active_nodes_wait_and_post 5 rand0 (fun _ => [])
        [({ node := 7, response := some errorOp }, { fetches := [], vm := none })]).1 ∧
    cloud_after [7] (add_active_nodes_wait_and_post 5 rand0 (fun _ => [])
        [({ node := 7, response := some errorOp }, { fetches := [], vm := none })]).1 =
      [7] := by
  refine ⟨rfl, rfl, ?_, rfl⟩
  decide

/-- C2 (amended) — Reconciliation after the wait phase deletes, for every
request not in Success state, the add-host session entry, the node's
storage-catalog entries (`node_cleanup`) and its database record, but it
never deletes a cloud instance: no `deleteInstance` effect is ever
emitted by `__post_launch_action`.  The only failure-path instance
deletion happens inside the wait phase itself, immediately when the
post-launch hook of a successfully launched instance raises. -/
theorem claim2_rollback_amended :
    (∀ (removedOf : Nat → List (String × AddedDisk)) (queue : List NodeRequest),
      (∀ n, (process_deleted_disk_changes n (removedOf n)).2 = .ok ()) →
      ∀ req ∈ queue, req.status ≠ "success" →
        Effect.clearSessionNode req.node ∈ (post_launch_action removedOf queue).1 ∧
        Effect.dbDeleteNode req.node ∈ (post_launch_action removedOf queue).1) ∧
    (∀ (removedOf : Nat → List (String × AddedDisk)) (queue : List NodeRequest) (n : Nat),
      Effect.deleteInstance n ∉ (post_launch_action removedOf queue).1) ∧
    (∀ (p : Nat) (rand : Nat → Nat) (w : ReqWorld) (req : NodeRequest) (n : Nat),
      Effect.deleteInstance n ∈ (wait_for_instance p rand w req).2.1 →
      n = req.node ∧ ∃ er, (instance_post_launch req.node w.vm).2 = .error er) := by
  refine ⟨?_, post_launch_action_no_instance_delete, ?_⟩
  · intro removedOf queue h req hreq hs
    have hmem := (post_launch_go_effect_mem removedOf queue h req hreq).1 hs
    have hparts := (post_launch_action_parts removedOf queue h).2
    rw [hparts]
    exact ⟨List.mem_append_left _ (List.mem_append_left _ hmem.1),
           List.mem_append_left _ (List.mem_append_left _ hmem.2)⟩
  · intro p rand w req n hmem
    unfold wait_for_instance at hmem
    cases hg : gevent_wait_for_instance p rand w.fetches req with
    | error e => rw [hg] at hmem; simp at hmem
    | ok rb =>
      obtain ⟨req2, b⟩ := rb
      have hnode : req2.node = req.node := gevent_wait_ok_node _ _ _ _ _ _ hg
      rw [hg] at hmem
      cases b with
      | false => simp at hmem
      | true =>
        simp only [if_true] at hmem
        cases hpost : instance_post_launch req2.node w.vm with
        | mk effs r =>
          cases r with
          | ok u =>
            rw [hpost] at hmem
            simp only at hmem
            exact absurd hmem (by
              have := instance_post_launch_no_delete req2.node w.vm n
              rw [hpost] at this
              exact this)
          | error er =>
            rw [hpost] at hmem
            simp only at hmem
            by_cases hd : w.deleteRaises = true
            · rw [if_pos hd] at hmem
              simp only at hmem
              rw [List.mem_append] at hmem
              rcases hmem with hmem | hmem
              · exact absurd hmem (by
                  have := instance_post_launch_no_delete req2.node w.vm n
                  rw [hpost] at this
                  exact this)
              · rw [List.mem_singleton] at hmem
                injection hmem with hn
                refine ⟨hn.trans hnode, er, ?_⟩
                rw [← hnode, hpost]
            · rw [if_neg hd] at hmem
              simp only at hmem
              rw [List.mem_append] at hmem
              rcases hmem with hmem | hmem
              · exact absurd hmem (by
                  have := instance_post_launch_no_delete req2.node w.vm n
                  rw [hpost] at this
                  exact this)
              · rw [List.mem_singleton] at hmem
                injection hmem with hn
                refine ⟨hn.trans hnode, er, ?_⟩
                rw [← hnode, hpost]

/-- Witness for C2 (amended): the error-status request of node 7 gets
its session entry cleared and its record deleted, and reconciliation
emits no instance deletion for it. -/
theorem claim2_rollback_amended_witness :
    (Effect.clearSessionNode 7 ∈
        (post_launch_action (fun _ => []) [{ node := 7, status := "error" }]).1 ∧
     Effect.dbDeleteNode 7 ∈
        (post_launch_action (fun _ => []) [{ node := 7, status := "error" }]).1) ∧
    Effect.deleteInstance 7 ∉
        (post_launch_action (fun _ => []) [{ node := 7, status := "error" }]).1 :=
  ⟨claim2_rollback_amended.1 (fun _ => []) [{ node := 7, status := "error" }]
      (fun _ => rfl) { node := 7, status := "error" } (List.mem_singleton.mpr rfl)
      (by decide),
   claim2_rollback_amended.2.1 (fun _ => []) [{ node := 7, status := "error" }] 7⟩

lemma wait_check_error (l : List NodeRequest)
    (h : l.any (fun r => r.status == "error") = true) :
    wait_check l = .error (.commandFailed "Fatal error launching one or more instances") := by
  unfold wait_check
  rw [if_pos h]

lemma wait_check_ok (l : List NodeRequest)
    (h : l.any (fun r => r.status == "error") = false) :
    wait_check l = .ok () := by
  unfold wait_check
  rw [if_neg (by simp [h])]

lemma add_active_effects (p : Nat) (rand : Nat → Nat)
    (removedOf : Nat → List (String × AddedDisk)) (queue : List (NodeRequest × ReqWorld)) :
    (add_active_nodes_wait_and_post p rand removedOf queue).1 =
      ((wait_phase p rand queue).map (fun x => x.2.1)).flatten ++
        (post_launch_action removedOf ((wait_phase p rand queue).map (fun x => x.1))).1 := by
  simp only [add_active_nodes_wait_and_post]
  cases hwc : wait_check ((wait_phase p rand queue).map (fun x => x.1)) <;> rfl

lemma add_active_result_error (p : Nat) (rand : Nat → Nat)
    (removedOf : Nat → List (String × AddedDisk)) (queue : List (NodeRequest × ReqWorld))
    (hae : ((wait_phase p rand queue).map (fun x => x.1)).any
      (fun r => r.status == "error") = true)
    (ns : List Nat)
    (hpost : (post_launch_action removedOf
      ((wait_phase p rand queue).map (fun x => x.1))).2 = .ok ns) :
    (add_active_nodes_wait_and_post p rand removedOf queue).2 =
      .error (.commandFailed "Fatal error launching one or more instances") := by
  simp only [add_active_nodes_wait_and_post]
  rw [wait_check_error _ hae, hpost]

lemma add_active_result_ok (p : Nat) (rand : Nat → Nat)
    (removedOf : Nat → List (String × AddedDisk)) (queue : List (NodeRequest × ReqWorld))
    (hae : ((wait_phase p rand queue).map (fun x => x.1)).any
      (fun r => r.status == "error") = false) :
    (add_active_nodes_wait_and_post p rand removedOf queue).2 =
      (post_launch_action removedOf ((wait_phase p rand queue).map (fun x => x.1))).2 := by
  simp only [add_active_nodes_wait_and_post]
  rw [wait_check_ok _ hae]

/-- A live instance description with one addressed interface, used in
concrete batch scenarios. -/
def vm_ok : VmInstance := { networkInterfaces := [{ networkIP := some "10.0.0.5" }] }

/-- Concrete batch of three submitted requests: nodes 1 and 2 launch and
complete their hooks, node 3's create operation ends with an `error`
field. -/
def c1_queue : List (NodeRequest × ReqWorld) :=
  [({ node := 1, response := some doneOp }, { fetches := [], vm := some vm_ok }),
   ({ node := 2, response := some doneOp }, { fetches := [], vm := some vm_ok }),
   ({ node := 3, response := some errorOp }, { fetches := [], vm := none })]

/-- C1 — counterexample: in the batch of 3 where all create calls
succeeded and exactly one polled operation carries an `error` field, the
committed count is 2, the failed node is rolled back and the
partial-success warning is emitted — but the batch call raises
`CommandFailed` instead of returning the 2 committed nodes:
`__wait_for_instances` raises whenever any request errored, not only
when every request failed, contradicting the claim. -/
theorem claim1_partial_success_still_raises :
    (add_active_nodes_wait_and_post 5 rand0 (fun _ => []) c1_queue).2 =
      .error (.commandFailed "Fatal error launching one or more instances") ∧
    ((wait_phase 5 rand0 c1_queue).map (fun x => x.1)).countP
      (fun r => r.status == "success") = 2 ∧
    Effect.partialWarning 2 3 ∈
      (add_active_nodes_wait_and_post 5 rand0 (fun _ => []) c1_queue).1 ∧
    Effect.fireProvisioned 1 ∈
      (add_active_nodes_wait_and_post 5 rand0 (fun _ => []) c1_queue).1 ∧
    Effect.fireProvisioned 2 ∈
      (add_active_nodes_wait_and_post 5 rand0 (fun _ => []) c1_queue).1 ∧
    Effect.dbDeleteNode 3 ∈
      (add_active_nodes_wait_and_post 5 rand0 (fun _ => []) c1_queue).1 := by
  refine ⟨rfl, rfl, ?_, ?_, ?_, ?_⟩ <;> decide

/-- C1 (amended) — Batch outcome as implemented: with every request
submitted, the wait phase classifies each request; the successful ones
are committed (provisioned-state write, provisioned event) and the
failed ones rolled back, and the partial-success warning is emitted
exactly when `0 < completed < count`; but the batch call raises
`CommandFailed` whenever at least one request ended in Error — also on
partial success — and returns the committed nodes only when no request
failed. -/
theorem claim1_partial_batch_amended :
    ∀ (p : Nat) (rand : Nat → Nat) (removedOf : Nat → List (String × AddedDisk))
      (queue : List (NodeRequest × ReqWorld)),
      (∀ n, (process_deleted_disk_changes n (removedOf n)).2 = .ok ()) →
      ((∃ r ∈ (wait_phase p rand queue).map (fun x => x.1), r.status = "error") →
        (add_active_nodes_wait_and_post p rand removedOf queue).2 =
          .error (.commandFailed "Fatal error launching one or more instances")) ∧
      ((∀ r ∈ (wait_phase p rand queue).map (fun x => x.1), r.status ≠ "error") →
        (add_active_nodes_wait_and_post p rand removedOf queue).2 =
          .ok ((((wait_phase p rand queue).map (fun x => x.1)).filter
            (fun r => r.status == "success")).map NodeRequest.node)) ∧
      ((0 < (((wait_phase p rand queue).map (fun x => x.1)).filter
          (fun r => r.status == "success")).length ∧
        (((wait_phase p rand queue).map (fun x => x.1)).filter
          (fun r => r.status == "success")).length < queue.length) →
        Effect.partialWarning
          ((((wait_phase p rand queue).map (fun x => x.1)).filter
            (fun r => r.status == "success")).length) queue.length ∈
          (add_active_nodes_wait_and_post p rand removedOf queue).1) ∧
      (∀ r ∈ (wait_phase p rand queue).map (fun x => x.1),
        (r.status = "success" → Effect.fireProvisioned r.node ∈
          (add_active_nodes_wait_and_post p rand removedOf queue).1) ∧
        (r.status ≠ "success" → Effect.dbDeleteNode r.node ∈
          (add_active_nodes_wait_and_post p rand removedOf queue).1)) := by
  intro p rand removedOf queue h
  have hlen : ((wait_phase p rand queue).map (fun x => x.1)).length = queue.length := by
    simp [wait_phase]
  have hparts := post_launch_action_parts removedOf
    ((wait_phase p rand queue).map (fun x => x.1)) h
  refine ⟨?_, ?_, ?_, ?_⟩
  · intro hex
    have hae : ((wait_phase p rand queue).map (fun x => x.1)).any
        (fun r => r.status == "error") = true := by
      rw [List.any_eq_true]
      obtain ⟨r, hr, hst⟩ := hex
      exact ⟨r, hr, by simp [hst]⟩
    exact add_active_result_error p rand removedOf queue hae _ hparts.1
  · intro hall
    have hae : ((wait_phase p rand queue).map (fun x => x.1)).any
        (fun r => r.status == "error") = false := by
      rw [List.any_eq_false]
      intro r hr
      simp [hall r hr]
    rw [add_active_result_ok p rand removedOf queue hae]
    exact hparts.1
  · intro hw
    rw [add_active_effects]
    apply List.mem_append_right
    rw [hparts.2]
    apply List.mem_append_right
    rw [if_pos (by rw [hlen]; exact hw)]
    rw [hlen]
    simp
  · intro r hr
    constructor
    · intro hs
      rw [add_active_effects]
      apply List.mem_append_right
      rw [hparts.2]
      apply List.mem_append_left
      apply List.mem_append_left
      exact ((post_launch_go_effect_mem removedOf _ h r hr).2 hs).2
    · intro hs
      rw [add_active_effects]
      apply List.mem_append_right
      rw [hparts.2]
      apply List.mem_append_left
      apply List.mem_append_left
      exact ((post_launch_go_effect_mem removedOf _ h r hr).1 hs).2

/-- Witness for C1 (amended): a batch of two requests that both launch
and complete their hooks returns both nodes. -/
theorem claim1_partial_batch_amended_witness :
    (add_active_nodes_wait_and_post 5 rand0 (fun _ => [])
      [({ node := 1, response := some doneOp }, { fetches := [], vm := some vm_ok }),
       ({ node := 2, response := some doneOp }, { fetches := [], vm := some vm_ok })]).2 =
      .ok [1, 2] :=
  ((claim1_partial_batch_amended 5 rand0 (fun _ => [])
      [({ node := 1, response := some doneOp }, { fetches := [], vm := some vm_ok }),
       ({ node := 2, response := some doneOp }, { fetches := [], vm := some vm_ok })]
      (fun _ => rfl)).2.1 (by decide)).trans rfl

/-- C9 — counterexample: a zone value with no hyphen does not raise
`ConfigurationError`: the two-target unpacking of `rsplit('-', 1)`
raises `ValueError`, and the `except` handler's message formatting looks
up `config['region']` — never set at that point — so the batch aborts
with `KeyError` and the `raise ConfigurationError` statement is never
reached.  Likewise a malformed accelerator string with a non-integer
count raises `ValueError` from `int(count)`, not `ConfigurationError`. -/
theorem claim9_zone_keyerror :
    process_config_region [("zone", "uscentral1")] = .error .keyError ∧
    parse_accelerator "nvidia-tesla-k80:two" = .error .valueError := by
  exact ⟨rfl, rfl⟩

/-- C9 (amended) — Malformed-settings behaviour as implemented: a
well-formed zone yields its region prefix, but a zone with no hyphen
raises `KeyError` (the handler's own `config['region']` lookup fails
before the intended `ConfigurationError` is constructed); every network
flag-parse failure and a duplicate primary network raise
`ConfigurationError`; an accelerator item that does not split into
exactly two `:`-separated parts raises `ConfigurationError`, while a
two-part item with a non-integer count raises `ValueError` from
`int(count)`. -/
theorem claim9_config_errors_amended :
    (∀ (cfg : List (String × String)) (z : String),
      cfg.lookup "zone" = some z → rsplitLast '-' z.data = none →
      cfg.lookup "region" = none →
      process_config_region cfg = .error .keyError) ∧
    (∀ (cfg : List (String × String)) (z : String) (a b : List Char),
      cfg.lookup "zone" = some z → rsplitLast '-' z.data = some (a, b) →
      process_config_region cfg = .ok (String.mk a)) ∧
    (∀ (args : Option String) (e : Err), get_network_flags args = .error e →
      ∃ msg, e = .configurationError msg) ∧
    (∀ (dp dr : String) (networks : List NetworkEntry),
      2 ≤ networks.countP carries_primary →
      ∃ msg, get_network_interface_definitions dp dr networks =
        .error (.configurationError msg)) ∧
    (∀ (s : String) (item : List Char) (rest : List (List Char)),
      pySplitChar ',' s.data = item :: rest →
      (pySplitChar ':' (pyStrip item)).length ≠ 2 →
      parse_accelerator s =
        .error (.configurationError "Invalid Accelerator Configuration")) ∧
    (∀ (s : String) (item : List Char) (rest : List (List Char)) (t c : List Char),
      pySplitChar ',' s.data = item :: rest →
      pySplitChar ':' (pyStrip item) = [t, c] →
      pyToNat? c = none →
      parse_accelerator s = .error .valueError) := by
  refine ⟨?_, ?_, get_network_flags_error_config, ?_, ?_, ?_⟩
  · intro cfg z hz hsplit hreg
    simp [process_config_region, hz, hsplit, hreg]
  · intro cfg z a b hz hsplit
    simp [process_config_region, hz, hsplit]
  · intro dp dr networks h
    obtain ⟨msg, hmsg⟩ := process_networks_dup_primary dp dr networks none
      (by simpa using h)
    exact ⟨msg, by simp [get_network_interface_definitions, hmsg]⟩
  · intro s item rest hsplit hlen
    unfold parse_accelerator
    rw [hsplit]
    unfold parse_accelerator.go
    cases hp : pySplitChar ':' (pyStrip item) with
    | nil => rfl
    | cons x xs =>
      cases xs with
      | nil => rfl
      | cons y ys =>
        cases ys with
        | nil =>
          exfalso
          apply hlen
          rw [hp]
          rfl
        | cons z zs => rfl
  · intro s item rest t c hsplit hp hnat
    unfold parse_accelerator
    rw [hsplit]
    unfold parse_accelerator.go
    rw [hp]
    simp [hnat]

/-- Witness for C9 (amended) on concrete settings: a good and a bad zone,
a bad network flag, a duplicate primary pair, and the two accelerator
failure shapes. -/
theorem claim9_config_errors_amended_witness :
    process_config_region [("zone", "europe-west1-b")] = .ok "europe-west1" ∧
    process_config_region [("zone", "nohyphen")] = .error .keyError ∧
    (∃ msg, Err.configurationError "Invalid network flag: [bogus]" =
      .configurationError msg) ∧
    (∃ msg, get_network_interface_definitions "p" "r"
      [("n1", none, some "primary"), ("n2", none, some "pri")] =
      .error (.configurationError msg)) ∧
    parse_accelerator "a:1:2" =
      .error (.configurationError "Invalid Accelerator Configuration") ∧
    parse_accelerator "gpu:two" = .error .valueError :=
  ⟨(claim9_config_errors_amended.2.1 [("zone", "europe-west1-b")] "europe-west1-b"
      "europe-west1".data "b".data rfl rfl).trans rfl,
   claim9_config_errors_amended.1 [("zone", "nohyphen")] "nohyphen" rfl rfl rfl,
   claim9_config_errors_amended.2.2.1 (some "bogus")
      (.configurationError "Invalid network flag: [bogus]") rfl,
   claim9_config_errors_amended.2.2.2.1 "p" "r"
      [("n1", none, some "primary"), ("n2", none, some "pri")] (by decide),
   claim9_config_errors_amended.2.2.2.2.1 "a:1:2" "a:1:2".data [] rfl (by decide),
   claim9_config_errors_amended.2.2.2.2.2 "gpu:two" "gpu:two".data []
      "gpu".data "two".data rfl rfl rfl⟩
